import Mathlib

/-!
Shallow embedding of the core RAG answering pipeline, session tracker,
evaluation service, reranking service and background job tracker of the
`lus-laboris-py` repository (`src/lus_laboris_api/api/...`), together with
theorems settling the specification claims about them.

Conventions of the embedding:
* Python floats are modelled as rationals (`ℚ`); every numeric value the
  claims touch is exactly representable, so no floating-point rounding is
  observable in any statement proved here.
* Python dictionaries used as keyed tables are modelled as association
  lists (`List (String × α)`) with `List.lookup`; insertion replaces any
  previous binding of the key and appends the new one.
* Fallible external calls (LLM providers, classifier model, embedding /
  vector-store / reranker backends) are modelled as `Except` values or
  outcome functions supplied as arguments; `raise` is `Except.error`.
* Side-effecting methods become explicit state-passing functions.
-/

namespace LusLaboris

/-! ## Python attribute values (phoenix_service.py)

`PyVal` models the Python values that can appear as OpenTelemetry span
attribute values in `phoenix_service.py`: primitives (`bool, str, bytes,
int, float`), `None`, lists/tuples and dicts. -/

inductive PyVal where
  | str (s : String)
  | int (n : Int)
  | float (q : ℚ)
  | bool (b : Bool)
  | bytes (bs : List Nat)
  | vnull
  | list (xs : List PyVal)
  | dict (kvs : List (String × PyVal))

/-- `isinstance(value, bool | str | bytes | int | float)`:
the primitive attribute types OpenTelemetry accepts directly. -/
def isPrimitive : PyVal → Bool
  | .str _ => true
  | .int _ => true
  | .float _ => true
  | .bool _ => true
  | .bytes _ => true
  | _ => false

/-- All elements of a list are primitive
(`all(isinstance(item, bool | str | bytes | int | float) for item in value)`). -/
def allPrimitive (xs : List PyVal) : Bool := xs.all isPrimitive

/-- A value the monitoring sink's wire format accepts: a primitive or a
sequence of primitives. -/
def sinkCompatible (v : PyVal) : Bool :=
  isPrimitive v ||
    (match v with
      | .list xs => allPrimitive xs
      | _ => false)

mutual

/-- Models `json.dumps` from the Python standard library (escaping of
special characters inside strings is not modelled; only the fact that the
result is a single string matters to the claims). -/
def jsonDumps : PyVal → String
  | .str s => "\"" ++ s ++ "\""
  | .int n => toString n
  | .float q => toString q
  | .bool b => if b then "true" else "false"
  | .bytes _ => "\"<bytes>\""
  | .vnull => "null"
  | .list xs => "[" ++ jsonDumpsList xs ++ "]"
  | .dict kvs => "\x7b" ++ jsonDumpsDict kvs ++ "\x7d"

/-- Renders the elements of a JSON array, comma separated. -/
def jsonDumpsList : List PyVal → String
  | [] => ""
  | [x] => jsonDumps x
  | x :: y :: xs => jsonDumps x ++ ", " ++ jsonDumpsList (y :: xs)

/-- Renders the entries of a JSON object, comma separated. -/
def jsonDumpsDict : List (String × PyVal) → String
  | [] => ""
  | [kv] => "\"" ++ kv.1 ++ "\": " ++ jsonDumps kv.2
  | kv :: kv2 :: kvs => "\"" ++ kv.1 ++ "\": " ++ jsonDumps kv.2 ++ ", " ++ jsonDumpsDict (kv2 :: kvs)

end

/-- The per-value transformation performed by
`PhoenixMonitoringService._serialize_metadata`: primitives pass through,
lists of primitives stay lists, other lists and dicts become JSON strings,
`None` becomes the string `"null"`, anything else becomes `str(value)`. -/
def serializeValue : PyVal → PyVal
  | .str s => .str s
  | .int n => .int n
  | .float q => .float q
  | .bool b => .bool b
  | .bytes bs => .bytes bs
  | .list xs => if allPrimitive xs then .list xs else .str (jsonDumps (.list xs))
  | .dict kvs => .str (jsonDumps (.dict kvs))
  | .vnull => .str "null"

/-- `PhoenixMonitoringService._serialize_metadata` (phoenix_service.py,
lines 172-204): serializes every value of the metadata dict. -/
def serialize_metadata (metadata : List (String × PyVal)) : List (String × PyVal) :=
  metadata.map fun kv => (kv.1, serializeValue kv.2)

/-! ## Session tracker (phoenix_service.py) -/

/-- One recorded LLM call of a session (the fields of `llm_call_data` that
the session metrics read). -/
structure LlmCall where
  provider : String
  model : String
  response_length : Nat
  deriving DecidableEq, Repr

/-- A live session record as stored in
`PhoenixMonitoringService.session_tracker[session_id]`; an action is
recorded by its `type` tag. -/
structure Session where
  user_id : Option String
  start_time : ℚ
  actions : List String
  llm_calls : List LlmCall
  deriving DecidableEq, Repr

/-- An evaluation task as enqueued by
`EvaluationService.enqueue_evaluation` (evaluation_service.py). -/
structure EvalTask where
  session_id : String
  question : String
  context : String
  answer : String
  documents_count : Nat
  timestamp : ℚ
  deriving DecidableEq, Repr

/-- The mutable state shared by the services: the live session table
(`PhoenixMonitoringService.session_tracker`) and the evaluation queue
(`EvaluationService.evaluation_queue`). -/
structure ApiState where
  sessions : List (String × Session)
  eval_queue : List EvalTask
  deriving DecidableEq, Repr

/-- Python dict assignment `d[k] = v`: any previous binding of `k` is
replaced. -/
def dictInsert (k : String) (v : Session) (l : List (String × Session)) :
    List (String × Session) :=
  l.filter (fun kv => kv.1 != k) ++ [(k, v)]

/-- Python `del d[k]`. -/
def dictErase (k : String) (l : List (String × Session)) : List (String × Session) :=
  l.filter (fun kv => kv.1 != k)

/-- `PhoenixMonitoringService.create_session` (phoenix_service.py, lines
133-147): stores a fresh empty session record under the generated id.
The generated UUID and the current time are passed in explicitly. -/
def create_session (st : ApiState) (session_id : String) (user_id : Option String)
    (now : ℚ) : ApiState :=
  { st with
    sessions :=
      dictInsert session_id
        { user_id := user_id, start_time := now, actions := [], llm_calls := [] }
        st.sessions }

/-- The final session metrics computed by
`PhoenixMonitoringService._calculate_session_metrics` (the scalar part;
the per-provider breakdown and per-action-type counts are derivable from
the stored lists and are not needed by any claim). -/
structure SessionMetrics where
  total_actions : Nat
  llm_calls_count : Nat
  duration_seconds : ℚ
  actions_per_minute : ℚ
  deriving DecidableEq, Repr

/-- `PhoenixMonitoringService._calculate_session_metrics`
(phoenix_service.py, lines 547-583). -/
def _calculate_session_metrics (s : Session) (duration : ℚ) : SessionMetrics :=
  { total_actions := s.actions.length
    llm_calls_count := s.llm_calls.length
    duration_seconds := duration
    actions_per_minute := (s.actions.length : ℚ) / max (duration / 60) 1 }

/-- The summary dict returned by a successful `end_session`: the session
data enriched with `end_time`, `duration` and `final_metrics`. -/
structure SessionSummary where
  session : Session
  end_time : ℚ
  duration : ℚ
  final_metrics : SessionMetrics
  deriving DecidableEq, Repr

/-- `PhoenixMonitoringService.end_session` (phoenix_service.py, lines
149-170): unknown id → empty summary (`none`), state unchanged; known id →
compute duration and final metrics, delete the session from the live
table, return the summary. -/
def end_session (st : ApiState) (session_id : String) (now : ℚ) :
    Option SessionSummary × ApiState :=
  match st.sessions.lookup session_id with
  | none => (none, st)
  | some s =>
      let duration := now - s.start_time
      (some
        { session := s, end_time := now, duration := duration
          final_metrics := _calculate_session_metrics s duration },
       { st with sessions := dictErase session_id st.sessions })

/-- `PhoenixMonitoringService._get_session_attributes` (phoenix_service.py,
lines 504-515).  Note that `session.user_id` is handed over as the raw
Python value: `None` when the session has no user id. -/
def _get_session_attributes (st : ApiState) (session_id : String) :
    List (String × PyVal) :=
  match st.sessions.lookup session_id with
  | none => []
  | some s =>
      [("session.user_id", match s.user_id with | some u => .str u | none => .vnull),
       ("session.start_time", .str (toString s.start_time)),
       ("session.actions_count", .int s.actions.length),
       ("session.llm_calls_count", .int s.llm_calls.length)]

/-- The attribute map handed to the monitoring sink by
`PhoenixMonitoringService.track_llm_call` (phoenix_service.py, lines
206-273): fixed primitives plus the *unserialized* session attributes. -/
def track_llm_call_attributes (st : ApiState) (session_id provider model prompt
    response : String) : List (String × PyVal) :=
  [("service.name", .str "lus-laboris-api"),
   ("service.version", .str "1.0.0"),
   ("llm.provider", .str provider),
   ("llm.model", .str model),
   ("llm.prompt_length", .int prompt.length),
   ("llm.response_length", .int response.length),
   ("session.id", .str session_id)] ++ _get_session_attributes st session_id

/-- Attributes handed to the sink by `track_vectorstore_search`
(phoenix_service.py, lines 275-318). -/
def track_vectorstore_search_attributes (st : ApiState) (session_id query : String)
    (results_count : Nat) (search_time : ℚ) : List (String × PyVal) :=
  [("service.name", .str "lus-laboris-api"),
   ("vectorstore.query_length", .int query.length),
   ("vectorstore.results_count", .int results_count),
   ("vectorstore.search_time", .float search_time),
   ("session.id", .str session_id)] ++ _get_session_attributes st session_id

/-- Attributes handed to the sink by `track_embedding_generation`
(phoenix_service.py, lines 320-363). -/
def track_embedding_generation_attributes (st : ApiState) (session_id text model : String)
    (generation_time : ℚ) : List (String × PyVal) :=
  [("service.name", .str "lus-laboris-api"),
   ("embedding.model", .str model),
   ("embedding.text_length", .int text.length),
   ("embedding.generation_time", .float generation_time),
   ("session.id", .str session_id)] ++ _get_session_attributes st session_id

/-- Attributes handed to the sink by `track_reranking`
(phoenix_service.py, lines 416-459). -/
def track_reranking_attributes (st : ApiState) (session_id query : String)
    (documents_count : Nat) (reranking_time : ℚ) : List (String × PyVal) :=
  [("service.name", .str "lus-laboris-api"),
   ("reranking.query_length", .int query.length),
   ("reranking.documents_count", .int documents_count),
   ("reranking.time", .float reranking_time),
   ("session.id", .str session_id)] ++ _get_session_attributes st session_id

/-- Attributes handed to the sink by `track_vectorstore_operation`
(phoenix_service.py, lines 365-414): this is the one tracking operation
that passes both the session attributes and the metadata through
`_serialize_metadata`. -/
def track_vectorstore_operation_attributes (st : ApiState)
    (session_id operation_type collection_name : String)
    (metadata : List (String × PyVal)) : List (String × PyVal) :=
  [("service.name", .str "lus-laboris-api"),
   ("vectorstore.operation", .str operation_type),
   ("vectorstore.collection", .str collection_name),
   ("session.id", .str session_id)] ++
    serialize_metadata (_get_session_attributes st session_id) ++
    serialize_metadata metadata

/-! ## Evaluation service (evaluation_service.py) -/

/-- ASCII case folding of one character; models Python `str.lower()` for
the ASCII strings the classifier outputs are compared against. -/
def charLower (c : Char) : Char :=
  if 65 ≤ c.toNat ∧ c.toNat ≤ 90 then Char.ofNat (c.toNat + 32) else c

/-- Python `s.lower()` (ASCII fragment). -/
def py_lower (s : String) : String := ⟨s.data.map charLower⟩

/-- `pat` is a prefix of `l` (character lists). -/
def charsIsPrefix : List Char → List Char → Bool
  | [], _ => true
  | _ :: _, [] => false
  | a :: as, b :: bs => a == b && charsIsPrefix as bs

/-- `pat` occurs as a contiguous substring of `l`. -/
def charsContains (pat : List Char) : List Char → Bool
  | [] => pat.isEmpty
  | x :: xs => charsIsPrefix pat (x :: xs) || charsContains pat xs

/-- Python `pat in s` on strings: substring containment. -/
def py_contains (s pat : String) : Bool := charsContains pat.data s.data

/-- The parsing step of `EvaluationService._evaluate_relevance`
(evaluation_service.py, lines 185-191), exactly as written in the source:

if eval_response and "relevant" in eval_response.lower(): return 1.0
elif eval_response and "irrelevant" in eval_response.lower(): return 0.0
else: return 0.5 -/
def parse_relevance_response (eval_response : String) : ℚ :=
  if eval_response ≠ "" ∧ py_contains (py_lower eval_response) "relevant" = true then 1
  else if eval_response ≠ "" ∧ py_contains (py_lower eval_response) "irrelevant" = true then 0
  else 1/2

/-- `EvaluationService._evaluate_relevance` (evaluation_service.py, lines
170-195): the classifier call is supplied as an outcome; an exception
yields `None`. -/
def _evaluate_relevance (classifier_outcome : Except String String) : Option ℚ :=
  match classifier_outcome with
  | .error _ => none
  | .ok eval_response => some (parse_relevance_response eval_response)

/-- The parsing step of `EvaluationService._evaluate_hallucination`
(evaluation_service.py, lines 213-219). -/
def parse_hallucination_response (eval_response : String) : ℚ :=
  if eval_response ≠ "" ∧ py_contains (py_lower eval_response) "factual" = true then 0
  else if eval_response ≠ "" ∧
      (py_contains (py_lower eval_response) "hallucinated" = true ∨
       py_contains (py_lower eval_response) "hallucination" = true) then 1
  else 1/2

/-- The parsing step of `EvaluationService._evaluate_toxicity`
(evaluation_service.py, lines 240-245); the default for an unparseable
output is 0.0 (non-toxic). -/
def parse_toxicity_response (eval_response : String) : ℚ :=
  if eval_response ≠ "" ∧
      (py_contains (py_lower eval_response) "no-tóxico" = true ∨
       py_contains (py_lower eval_response) "no toxico" = true ∨
       py_contains (py_lower eval_response) "no tóxico" = true) then 0
  else if eval_response ≠ "" ∧
      (py_contains (py_lower eval_response) "tóxico" = true ∨
       py_contains (py_lower eval_response) "toxico" = true) then 1
  else 0

/-- `EvaluationService._calculate_overall_quality` (evaluation_service.py,
lines 251-283), following the source's sequential accumulation of
weighted scores and weights. -/
def _calculate_overall_quality (relevance hallucination toxicity : Option ℚ) :
    Option ℚ :=
  let s0 : ℚ := 0
  let w0 : ℚ := 0
  let sw1 :=
    match relevance with
    | some r => (s0 + r * (5/10), w0 + 5/10)
    | none => (s0, w0)
  let sw2 :=
    match hallucination with
    | some h => (sw1.1 + (1 - h) * (4/10), sw1.2 + 4/10)
    | none => sw1
  let sw3 :=
    match toxicity with
    | some t => (sw2.1 + (1 - t) * (1/10), sw2.2 + 1/10)
    | none => sw2
  if sw3.2 = 0 then none else some (sw3.1 / sw3.2)

/-- Modelled from the spec: the blended score written as one formula,
`(relevance·0.5 + (1−hallucination)·0.4 + (1−toxicity)·0.1)` divided by
the sum of the weights whose input was available, absent inputs
contributing neither score nor weight; `None` if no input was available.
Stated only to be compared with `_calculate_overall_quality`. -/
def overall_quality_spec (relevance hallucination toxicity : Option ℚ) : Option ℚ :=
  let score :=
    (match relevance with | some r => r * (5/10) | none => 0) +
    (match hallucination with | some h => (1 - h) * (4/10) | none => 0) +
    (match toxicity with | some t => (1 - t) * (1/10) | none => 0)
  let weight :=
    (if relevance.isSome then (5 : ℚ)/10 else 0) +
    (if hallucination.isSome then (4 : ℚ)/10 else 0) +
    (if toxicity.isSome then (1 : ℚ)/10 else 0)
  if weight = 0 then none else some (score / weight)

/-- `EvaluationService.enqueue_evaluation` (evaluation_service.py, lines
85-109): a no-op when evaluation is disabled, otherwise a non-blocking
put of the task onto the FIFO queue. -/
def enqueue_evaluation (enabled : Bool) (st : ApiState) (task : EvalTask) : ApiState :=
  if enabled then { st with eval_queue := st.eval_queue ++ [task] } else st

/-! ## Reranking service (reranking_service.py) -/

/-- The payload of a document stored in / retrieved from Qdrant (the
fields read by the RAG pipeline). -/
structure Payload where
  articulo : String
  capitulo_descripcion : String
  articulo_numero : Option Nat
  deriving DecidableEq, Repr

/-- A retrieved document record: `{id, score, payload}` plus the
`rerank_score` key added by the reranking service (absent = `none`). -/
structure Doc where
  id : Nat
  score : ℚ
  rerank_score : Option ℚ
  payload : Payload
  deriving DecidableEq, Repr

/-- The metadata dict returned by `rerank_documents`. -/
structure RerankMeta where
  reranking_applied : Bool
  model_name : Option String
  documents_reranked : Option Nat
  documents_returned : Option Nat
  score_min : Option ℚ
  score_max : Option ℚ
  score_mean : Option ℚ
  error : Option String
  deriving DecidableEq, Repr

/-- Metadata for the paths that skip reranking:
`{"reranking_applied": False}`. -/
def rerankMetaNotApplied : RerankMeta :=
  { reranking_applied := false, model_name := none, documents_reranked := none
    documents_returned := none, score_min := none, score_max := none
    score_mean := none, error := none }

/-- `np.min` over a nonempty score list (0 for the empty list, which the
source never hits because it returns early on empty input). -/
def scoresMin : List ℚ → ℚ
  | [] => 0
  | x :: xs => xs.foldl min x

/-- `np.max` over a nonempty score list. -/
def scoresMax : List ℚ → ℚ
  | [] => 0
  | x :: xs => xs.foldl max x

/-- `np.mean` of the score list. -/
def scoresMean (scores : List ℚ) : ℚ := scores.sum / scores.length

/-- `RerankingService.rerank_documents` (reranking_service.py, lines
66-138).  The cross-encoder scores (`self.model.predict`, one per
document) are supplied as `scores`; `use_reranking`/`model_loaded` model
`self.use_reranking` and `self.model`.  Each document receives its
`rerank_score`, the list is sorted by that score descending (Python
`sorted` is a stable merge sort, as is `List.mergeSort`), and truncated
to `top_k` when given. -/
def rerank_documents (use_reranking model_loaded : Bool) (model_name : String)
    (query : String) (documents : List Doc) (top_k : Option Nat)
    (scores : List ℚ) : List Doc × RerankMeta :=
  if ¬(use_reranking && model_loaded) then (documents, rerankMetaNotApplied)
  else if documents.isEmpty then (documents, rerankMetaNotApplied)
  else
    let docs_scored :=
      List.zipWith (fun d s => { d with rerank_score := some s }) documents scores
    let reranked_all :=
      docs_scored.mergeSort fun a b =>
        decide ((b.rerank_score.getD 0) ≤ (a.rerank_score.getD 0))
    let reranked_documents :=
      match top_k with
      | some k => reranked_all.take k
      | none => reranked_all
    (reranked_documents,
      { reranking_applied := true
        model_name := some model_name
        documents_reranked := some documents.length
        documents_returned := some reranked_documents.length
        score_min := some (scoresMin scores)
        score_max := some (scoresMax scores)
        score_mean := some (scoresMean scores)
        error := none })

/-! ## RAG service (rag_service.py) -/

/-- The configuration fields of `RAGService` read from `settings`. -/
structure RagConfig where
  llm_provider : String
  llm_model : String
  top_k : Nat
  use_reranking : Bool
  evaluation_enabled : Bool
  deriving DecidableEq, Repr

/-- Python `round(x, ndigits)` on our rational model (the half-to-even tie
rule of floats is not observable in any statement proved here). -/
def py_round (ndigits : Nat) (q : ℚ) : ℚ :=
  (round (q * 10 ^ ndigits) : ℚ) / 10 ^ ndigits

/-- Renders `articulo_numero` as Python does for a present/missing key
(`payload.get("articulo_numero", "N/A")`). -/
def articuloNumeroText : Option Nat → String
  | some n => toString n
  | none => "N/A"

/-- `RAGService._build_context` (rag_service.py, lines 168-186). -/
def _build_context (documents : List Doc) : String :=
  if documents.isEmpty then "No se encontraron documentos relevantes."
  else
    String.intercalate "\n" <|
      documents.enum.map fun idoc =>
        "Documento " ++ toString (idoc.1 + 1) ++ ":\n" ++
          idoc.2.payload.articulo ++ " [Capítulo: " ++
          idoc.2.payload.capitulo_descripcion ++ " - Artículo número: " ++
          articuloNumeroText idoc.2.payload.articulo_numero ++ "]" ++ "\n"

/-- `RAGService._create_prompt` (rag_service.py, lines 188-208). -/
def _create_prompt (query context : String) : String :=
  "Eres un asistente especializado en derecho laboral paraguayo.\n" ++
  "Responde la pregunta del usuario basándote únicamente en el contexto proporcionado.\n\n" ++
  "CONTEXTO:\n" ++ context ++ "\n\n" ++
  "PREGUNTA: " ++ query ++ "\n\n" ++
  "INSTRUCCIONES:\n" ++
  "- Responde de manera clara y precisa\n" ++
  "- Basa tu respuesta únicamente en el contexto proporcionado\n" ++
  "- Si el contexto no contiene información suficiente, indícalo claramente\n" ++
  "- Cita los artículos específicos cuando sea relevante\n" ++
  "- Mantén un tono profesional y técnico apropiado para el ámbito legal\n\n" ++
  "RESPUESTA:"

/-- Models tenacity's `wait_exponential(multiplier, min, max)`: the wait
after attempt number `n` is `multiplier * 2^(n-1)` clamped into
`[min, max]` (tenacity wait.py). -/
def wait_exponential (multiplier mn mx : ℚ) (attempt_number : Nat) : ℚ :=
  max (max 0 mn) (min (multiplier * 2 ^ (attempt_number - 1)) mx)

/-- Models tenacity's retry loop with `stop_after_attempt`: `remaining`
further attempts are allowed after the current one; attempt `n` has
outcome `outcomes n`; `waited` accumulates the backoff slept so far.
Returns (number of the last attempt made, total backoff wait, outcome of
the last attempt). -/
def retry_go (wait : Nat → ℚ) (outcomes : Nat → Except String String) :
    Nat → Nat → ℚ → Nat × ℚ × Except String String
  | 0, n, waited => (n, waited, outcomes n)
  | remaining + 1, n, waited =>
      match outcomes n with
      | .ok v => (n, waited, .ok v)
      | .error _ => retry_go wait outcomes remaining (n + 1) (waited + wait n)

/-- A call guarded by
`retry(stop=stop_after_attempt(stop), wait=wait_exponential(...))`:
attempts are numbered from 1. -/
def retry_call (stop : Nat) (wait : Nat → ℚ) (outcomes : Nat → Except String String) :
    Nat × ℚ × Except String String :=
  retry_go wait outcomes (stop - 1) 1 0

/-- `RAGService._generate_openai_response` (rag_service.py, lines 210-235):
the body (one OpenAI chat-completion call on the prompt) is supplied
as a family of per-attempt outcomes; the tenacity policy is
`stop_after_attempt(3), wait_exponential(multiplier=2, min=2, max=60)`.
`_generate_gemini_response` (lines 237-257) carries the identical retry
decorator, so this definition models both backends' retry behavior. -/
def _generate_openai_response (outcomes : Nat → Except String String) :
    Nat × ℚ × Except String String :=
  retry_call 3 (wait_exponential 2 2 60) outcomes

/-- `RAGService._generate_response` (rag_service.py, lines 259-294):
empty document list → fixed fallback message with zero provider calls;
otherwise build the context and prompt and submit the prompt to the
configured provider (`llm` maps the prompt to the provider outcome after
retries).  Returns the answer text together with the number of LLM
provider invocations made. -/
def _generate_response (cfg : RagConfig) (query : String) (documents : List Doc)
    (llm : String → Except String String) : Except String (String × Nat) :=
  if documents.isEmpty then
    .ok ("No relevant documents found to answer the question.", 0)
  else
    let context_text := _build_context documents
    let prompt := _create_prompt query context_text
    if cfg.llm_provider = "openai" ∨ cfg.llm_provider = "gemini" then
      match llm prompt with
      | .ok response => .ok (response, 1)
      | .error e => .error e
    else
      .error ("Unsupported LLM provider: " ++ cfg.llm_provider)

/-- One document of a successful response as built by `answer_question`
(rag_service.py, lines 343-359).  `rerank_score` is reported through the
truthiness test `if doc.get("rerank_score")`, so a score of exactly 0 (or
an absent score) is reported as `null`. -/
structure ResponseDoc where
  id : Nat
  score : ℚ
  rerank_score : Option ℚ
  articulo_numero : Option Nat
  capitulo_descripcion : String
  articulo : String
  deriving DecidableEq, Repr

/-- The per-document mapping of `answer_question`'s response building. -/
def buildResponseDoc (doc : Doc) : ResponseDoc :=
  { id := doc.id
    score := py_round 4 doc.score
    rerank_score :=
      match doc.rerank_score with
      | some v => if v = 0 then none else some (py_round 4 v)
      | none => none
    articulo_numero := doc.payload.articulo_numero
    capitulo_descripcion := doc.payload.capitulo_descripcion
    articulo :=
      if doc.payload.articulo.length > 200 then doc.payload.articulo.take 200 ++ "..."
      else doc.payload.articulo }

/-- The dict returned by `RAGService.answer_question`: on success all
fields are populated; on failure only `success=False`, `question`,
`error`, `processing_time_seconds` and `session_id` are present. -/
structure AnswerResult where
  success : Bool
  question : String
  answer : Option String
  error : Option String
  processing_time_seconds : ℚ
  documents_retrieved : Option Nat
  top_k : Option Nat
  reranking_applied : Option Bool
  session_id : String
  documents : List ResponseDoc
  deriving DecidableEq, Repr

/-- `RAGService.answer_question` (rag_service.py, lines 296-378).
External effects are supplied explicitly: `fresh_sid`/`now` feed the
session created when no `session_id` is passed, `retrieval` is the
outcome of `_retrieve_documents` (documents plus retrieval metadata),
`llm` is the provider outcome for a prompt, and `elapsed` the measured
processing time.  An exception from retrieval or generation is caught and
turned into a failure result; no path ends the created session. -/
def answer_question (cfg : RagConfig) (st : ApiState) (fresh_sid : String)
    (question : String) (session_id? : Option String)
    (retrieval : Except String (List Doc × RerankMeta))
    (llm : String → Except String String) (elapsed now : ℚ) :
    AnswerResult × ApiState :=
  let sid_st :=
    match session_id? with
    | some s => (s, st)
    | none => (fresh_sid, create_session st fresh_sid none now)
  let sid := sid_st.1
  let st1 := sid_st.2
  let fail : String → AnswerResult × ApiState := fun e =>
    ({ success := false, question := question, answer := none, error := some e
       processing_time_seconds := py_round 3 elapsed, documents_retrieved := none
       top_k := none, reranking_applied := none, session_id := sid
       documents := [] }, st1)
  match retrieval with
  | .error e => fail e
  | .ok (documents, retrieval_metadata) =>
      match _generate_response cfg question documents llm with
      | .error e => fail e
      | .ok (answer, _calls) =>
          let context_text := _build_context documents
          let st2 :=
            enqueue_evaluation cfg.evaluation_enabled st1
              { session_id := sid, question := question, context := context_text
                answer := answer, documents_count := documents.length
                timestamp := now }
          ({ success := true, question := question, answer := some answer
             error := none, processing_time_seconds := py_round 3 elapsed
             documents_retrieved := some documents.length
             top_k := some cfg.top_k
             reranking_applied := some retrieval_metadata.reranking_applied
             session_id := sid
             documents := documents.map buildResponseDoc }, st2)

/-! ## Background job tracker (endpoints/vectorstore.py) -/

/-- The `status` field of a background job record. -/
inductive JobStatus where
  | queued
  | processing
  | completed
  | failed
  deriving DecidableEq, Repr

/-- The `result` payload stored on successful completion. -/
structure JobResult where
  documents_processed : Nat
  documents_inserted : Nat
  processing_time_seconds : ℚ
  deriving DecidableEq, Repr

/-- A record of `background_jobs[job_id]` (endpoints/vectorstore.py);
absent dict keys are `none`. -/
structure Job where
  job_id : String
  status : JobStatus
  operation : String
  user : String
  collection_name : String
  filename : String
  created_at : ℚ
  started_at : Option ℚ
  completed_at : Option ℚ
  result : Option JobResult
  error : Option String
  session_id : Option String
  deriving DecidableEq, Repr

/-- The job record stored by `load_to_vectorstore_local` (endpoints/
vectorstore.py, lines 429-486) before scheduling the background task:
state `queued`, creation timestamp, no result and no error. -/
def submit_job (job_id operation user collection_name filename : String)
    (now : ℚ) : Job :=
  { job_id := job_id, status := .queued, operation := operation, user := user
    collection_name := collection_name, filename := filename, created_at := now
    started_at := none, completed_at := none, result := none, error := none
    session_id := none }

/-- The first statements of `_load_to_vectorstore_background` (endpoints/
vectorstore.py, lines 47-55): mark the job `processing`, stamp the start
time, create the monitoring session and store its id. -/
def job_start_processing (j : Job) (t_start : ℚ) (session_id : String) : Job :=
  { j with status := .processing, started_at := some t_start
           session_id := some session_id }

/-- The completion of `_load_to_vectorstore_background` (endpoints/
vectorstore.py, lines 111-137): on normal completion stamp the completion
time, store the result and mark `completed`; on any exception stamp the
completion time, store the error message and mark `failed`. -/
def job_finish (j : Job) (outcome : Except String JobResult) (t_end : ℚ) : Job :=
  match outcome with
  | .ok r => { j with status := .completed, completed_at := some t_end, result := some r }
  | .error e => { j with status := .failed, completed_at := some t_end, error := some e }

/-- The whole background work unit `_load_to_vectorstore_background`
(endpoints/vectorstore.py, lines 39-141) applied to a job record, with
the outcome of the data-loading/embedding/insertion work supplied as
`outcome`. -/
def load_to_vectorstore_background (j : Job) (session_id : String)
    (t_start t_end : ℚ) (outcome : Except String JobResult) : Job :=
  job_finish (job_start_processing j t_start session_id) outcome t_end

/-- Progress rank of a job status along
`queued → processing → {completed|failed}`. -/
def statusRank : JobStatus → Nat
  | .queued => 0
  | .processing => 1
  | .completed => 2
  | .failed => 2

/-! ## Sample data used by concrete instantiations -/

/-- A configuration with the OpenAI provider, as deployed by default. -/
def sampleCfg : RagConfig :=
  { llm_provider := "openai", llm_model := "gpt-4o-mini", top_k := 5
    use_reranking := true, evaluation_enabled := true }

/-- A session record as created on the answering path
(`phoenix_service.create_session()` is called without a user id there). -/
def sampleSession : Session :=
  { user_id := none, start_time := 0, actions := [], llm_calls := [] }

/-- A state holding one live session that has no user id. -/
def sampleState : ApiState :=
  { sessions := [("sess-1", sampleSession)], eval_queue := [] }

/-- A sample payload. -/
def samplePayload : Payload :=
  { articulo := "Todo trabajador tiene derecho a vacaciones."
    capitulo_descripcion := "De las vacaciones", articulo_numero := some 218 }

/-- A second sample payload. -/
def samplePayload2 : Payload :=
  { articulo := "El contrato de trabajo debe constar por escrito."
    capitulo_descripcion := "Del contrato", articulo_numero := some 17 }

/-- Two sample retrieved documents (no rerank score yet). -/
def sampleDocs : List Doc :=
  [{ id := 1, score := 9/10, rerank_score := none, payload := samplePayload },
   { id := 2, score := 8/10, rerank_score := none, payload := samplePayload2 }]

/-! ## Theorems -/

/-- C1: the relevance sub-check maps the classifier output `"relevant"` to
1.0 and an unparseable output to 0.5, but the output `"irrelevant"` is
mapped to 1.0, not 0.0: the first branch tests `"relevant" in
eval_response.lower()`, and `"relevant"` is a substring of
`"irrelevant"`, so the 0.0 branch of the source is unreachable.  This
evaluates the code at the failing input. -/
theorem evaluate_relevance_irrelevant_scored_one :
    _evaluate_relevance (.ok "irrelevant") = some 1 ∧
    _evaluate_relevance (.ok "relevant") = some 1 ∧
    _evaluate_relevance (.ok "no classification") = some (1/2) ∧
    py_contains (py_lower "irrelevant") "relevant" = true := by
  have h1 : py_contains (py_lower "no classification") "relevant" = false := by decide
  have h2 : py_contains (py_lower "no classification") "irrelevant" = false := by decide
  refine ⟨by decide, by decide, ?_, by decide⟩
  simp [_evaluate_relevance, parse_relevance_response, h1, h2]

/-- C4: `_calculate_overall_quality` computes exactly the spec's blended
score with renormalized weights over the available inputs, is `None` when
all three inputs are absent, and yields exactly 1.0 on
(relevance, hallucination, toxicity) = (1.0, 0.0, 0.0). -/
theorem overall_quality_matches_spec :
    (∀ relevance hallucination toxicity : Option ℚ,
      _calculate_overall_quality relevance hallucination toxicity =
        overall_quality_spec relevance hallucination toxicity) ∧
    _calculate_overall_quality none none none = none ∧
    _calculate_overall_quality (some 1) (some 0) (some 0) = some 1 := by
  refine ⟨?_, by norm_num [_calculate_overall_quality], by norm_num [_calculate_overall_quality]⟩
  intro r h t
  rcases r with _ | rv <;> rcases h with _ | hv <;> rcases t with _ | tv <;>
    simp only [_calculate_overall_quality, overall_quality_spec, Option.isSome] <;>
    norm_num

/-- C5: a submitted job starts `queued` with its creation timestamp and
neither result nor error; its status only moves strictly forward through
`queued → processing → {completed|failed}`; and after the background work
unit finishes it is `completed` with a non-null result and no error, or
`failed` with a non-null error and no result. -/
theorem job_lifecycle_forward_only :
    ∀ (job_id operation user collection_name filename session_id : String)
      (now t1 t2 : ℚ) (outcome : Except String JobResult),
      (submit_job job_id operation user collection_name filename now).status = .queued ∧
      (submit_job job_id operation user collection_name filename now).created_at = now ∧
      (submit_job job_id operation user collection_name filename now).result = none ∧
      (submit_job job_id operation user collection_name filename now).error = none ∧
      List.Chain' (fun a b => statusRank a < statusRank b)
        [(submit_job job_id operation user collection_name filename now).status,
         (job_start_processing (submit_job job_id operation user collection_name filename now)
            t1 session_id).status,
         (load_to_vectorstore_background
            (submit_job job_id operation user collection_name filename now)
            session_id t1 t2 outcome).status] ∧
      (((load_to_vectorstore_background
            (submit_job job_id operation user collection_name filename now)
            session_id t1 t2 outcome).status = .completed ∧
        (load_to_vectorstore_background
            (submit_job job_id operation user collection_name filename now)
            session_id t1 t2 outcome).result ≠ none ∧
        (load_to_vectorstore_background
            (submit_job job_id operation user collection_name filename now)
            session_id t1 t2 outcome).error = none) ∨
       ((load_to_vectorstore_background
            (submit_job job_id operation user collection_name filename now)
            session_id t1 t2 outcome).status = .failed ∧
        (load_to_vectorstore_background
            (submit_job job_id operation user collection_name filename now)
            session_id t1 t2 outcome).error ≠ none ∧
        (load_to_vectorstore_background
            (submit_job job_id operation user collection_name filename now)
            session_id t1 t2 outcome).result = none)) := by
  intro job_id operation user collection_name filename session_id now t1 t2 outcome
  cases outcome <;>
    simp [submit_job, job_start_processing, load_to_vectorstore_background, job_finish,
      statusRank]

/-- C8: with zero retrieved documents, `_generate_response` returns the
fixed fallback message and makes zero LLM provider invocations. -/
theorem generate_response_empty_documents :
    ∀ (cfg : RagConfig) (query : String) (llm : String → Except String String),
      _generate_response cfg query [] llm =
        .ok ("No relevant documents found to answer the question.", 0) := by
  intro cfg query llm
  rfl

/-- C10: a document whose rerank score is exactly 0 is reported with
`rerank_score = null` (the source tests presence by truthiness), making it
indistinguishable in the response from a document that was never
reranked. -/
theorem zero_rerank_score_reported_null :
    ∀ doc : Doc,
      (buildResponseDoc { doc with rerank_score := some 0 }).rerank_score = none ∧
      buildResponseDoc { doc with rerank_score := some 0 } =
        buildResponseDoc { doc with rerank_score := none } := by
  intro doc
  constructor <;> simp [buildResponseDoc]

/-- In the retry loop, the number of the last attempt made never exceeds
the current attempt number plus the remaining budget. -/
theorem retry_go_attempts_le (wait : Nat → ℚ) (outcomes : Nat → Except String String) :
    ∀ (fuel n : Nat) (waited : ℚ),
      (retry_go wait outcomes fuel n waited).1 ≤ n + fuel := by
  intro fuel
  induction fuel with
  | zero =>
      intro n waited
      simp [retry_go]
  | succ f ih =>
      intro n waited
      rcases ho : outcomes n with e | v <;> simp only [retry_go, ho]
      · exact le_trans (ih (n + 1) (waited + wait n)) (by omega)
      · omega

/-- C6: a generation call makes at most 3 attempts; if the backend raises
on all attempts, the call raises after exactly 3 attempts with total
backoff wait 2s + 4s (the exponential waits after attempts 1 and 2, from
a 2s start capped at 60s), and a generation failure propagates out of
`_generate_response` as a pipeline failure rather than being swallowed. -/
theorem generate_retry_policy :
    (∀ outcomes : Nat → Except String String,
      (_generate_openai_response outcomes).1 ≤ 3) ∧
    (∀ (outcomes : Nat → Except String String) (es : Nat → String),
      (∀ n, outcomes n = .error (es n)) →
      (_generate_openai_response outcomes).1 = 3 ∧
      (_generate_openai_response outcomes).2.1 = 2 + 4 ∧
      (_generate_openai_response outcomes).2.2 = .error (es 3)) ∧
    (∀ (cfg : RagConfig) (query : String) (documents : List Doc) (e : String),
      documents ≠ [] → cfg.llm_provider = "openai" →
      _generate_response cfg query documents (fun _ => .error e) = .error e) := by
  have hw1 : wait_exponential 2 2 60 1 = 2 := by
    norm_num [wait_exponential]
  have hw2 : wait_exponential 2 2 60 2 = 4 := by
    norm_num [wait_exponential]
  refine ⟨?_, ?_, ?_⟩
  · intro outcomes
    exact retry_go_attempts_le (wait_exponential 2 2 60) outcomes 2 1 0
  · intro outcomes es hfail
    simp only [_generate_openai_response, retry_call, retry_go, hfail]
    norm_num [hw1, hw2]
  · intro cfg query documents e hne hprov
    have hempty : documents.isEmpty = false := by
      cases documents with
      | nil => exact absurd rfl hne
      | cons d ds => rfl
    simp [_generate_response, hempty, hprov]

/-- C6 witness: the retry policy at a backend that raises on every
attempt, and the propagation instance on a nonempty document list. -/
theorem generate_retry_policy_witness :
    ((_generate_openai_response fun _ => .error "rate limited").1 = 3 ∧
     (_generate_openai_response fun _ => .error "rate limited").2.1 = 2 + 4 ∧
     (_generate_openai_response fun _ => .error "rate limited").2.2 =
       .error "rate limited") ∧
    _generate_response sampleCfg "pregunta" sampleDocs (fun _ => .error "rate limited") =
      .error "rate limited" := by
  constructor
  · exact generate_retry_policy.2.1 (fun _ => .error "rate limited")
      (fun _ => "rate limited") (fun _ => rfl)
  · exact generate_retry_policy.2.2 sampleCfg "pregunta" sampleDocs "rate limited"
      (by simp [sampleDocs]) rfl

/-- Looking a key up after filtering out exactly that key yields nothing
(the effect of `del d[k]` on the association-list model). -/
theorem lookup_filter_self (k : String) (l : List (String × Session)) :
    (l.filter fun kv => kv.1 != k).lookup k = none := by
  induction l with
  | nil => rfl
  | cons a l ih =>
      by_cases h : a.1 = k
      · simp [List.filter_cons, h, ih]
      · have hne : (a.1 != k) = true := by simp [bne, h]
        have hkne : (k == a.1) = false := by
          simp [BEq.beq]
          exact fun hk => h hk.symm
        simp [List.filter_cons, hne, List.lookup, hkne, ih]

/-- Looking up the key just inserted by `dictInsert` yields the inserted
value. -/
theorem lookup_dictInsert (k : String) (v : Session) (l : List (String × Session)) :
    (dictInsert k v l).lookup k = some v := by
  unfold dictInsert
  induction l with
  | nil => simp [List.lookup]
  | cons a l ih =>
      by_cases h : a.1 = k
      · simp [List.filter_cons, h, ih]
      · have hne : (a.1 != k) = true := by simp [bne, h]
        have hkne : (k == a.1) = false := by
          simp [BEq.beq]
          exact fun hk => h hk.symm
        simp [List.filter_cons, hne, List.lookup, hkne] at ih ⊢
        exact ih

/-- C9: ending a session twice returns the session's summary the first
time (when the id is live), removes the session from the live table, and
returns the empty summary the second time, without raising. -/
theorem end_session_idempotent :
    ∀ (st : ApiState) (session_id : String) (now1 now2 : ℚ),
      (end_session (end_session st session_id now1).2 session_id now2).1 = none ∧
      (end_session st session_id now1).2.sessions.lookup session_id = none ∧
      (∀ sess, st.sessions.lookup session_id = some sess →
        (end_session st session_id now1).1 =
          some { session := sess, end_time := now1
                 duration := now1 - sess.start_time
                 final_metrics :=
                   _calculate_session_metrics sess (now1 - sess.start_time) }) := by
  intro st session_id now1 now2
  rcases hl : st.sessions.lookup session_id with _ | sess
  · refine ⟨?_, ?_, ?_⟩
    · simp [end_session, hl]
    · simp [end_session, hl]
    · intro sess hs
      exact Option.noConfusion hs
  · have herase : (dictErase session_id st.sessions).lookup session_id = none :=
      lookup_filter_self session_id st.sessions
    refine ⟨?_, ?_, ?_⟩
    · simp [end_session, hl, herase]
    · simp [end_session, hl, herase]
    · intro sess2 hs
      injection hs with hs
      subst hs
      simp [end_session, hl]

/-- C9 witness: ending the sample live session twice. -/
theorem end_session_idempotent_witness :
    (end_session (end_session sampleState "sess-1" 5).2 "sess-1" 7).1 = none ∧
    (end_session sampleState "sess-1" 5).2.sessions.lookup "sess-1" = none ∧
    (end_session sampleState "sess-1" 5).1 =
      some { session := sampleSession, end_time := 5
             duration := 5 - sampleSession.start_time
             final_metrics :=
               _calculate_session_metrics sampleSession (5 - sampleSession.start_time) } := by
  have h := end_session_idempotent sampleState "sess-1" 5 7
  exact ⟨h.1, h.2.1, h.2.2 sampleSession rfl⟩

/-- C2 (amended): on a retrieval or generation failure, `answer_question`
returns (does not raise) a failure result with `success=false`, the
exception message as `error`, and the measured processing time — but it
does not end a session created inside the call: that session is still in
the live session table when the function returns. -/
theorem answer_question_failure_result :
    ∀ (cfg : RagConfig) (st : ApiState) (fresh_sid question e : String)
      (llm : String → Except String String) (elapsed now : ℚ),
      ((answer_question cfg st fresh_sid question none (.error e) llm elapsed now).1.success
          = false ∧
       (answer_question cfg st fresh_sid question none (.error e) llm elapsed now).1.error
          = some e ∧
       (answer_question cfg st fresh_sid question none
          (.error e) llm elapsed now).1.processing_time_seconds = py_round 3 elapsed ∧
       (answer_question cfg st fresh_sid question none (.error e) llm elapsed now).1.session_id
          = fresh_sid ∧
       (answer_question cfg st fresh_sid question none
          (.error e) llm elapsed now).2.sessions.lookup fresh_sid =
         some { user_id := none, start_time := now, actions := [], llm_calls := [] }) ∧
      (∀ (documents : List Doc) (meta : RerankMeta) (e2 : String),
        documents ≠ [] → cfg.llm_provider = "openai" →
        ((answer_question cfg st fresh_sid question none (.ok (documents, meta))
            (fun _ => .error e2) elapsed now).1.success = false ∧
         (answer_question cfg st fresh_sid question none (.ok (documents, meta))
            (fun _ => .error e2) elapsed now).1.error = some e2 ∧
         (answer_question cfg st fresh_sid question none (.ok (documents, meta))
            (fun _ => .error e2) elapsed now).2.sessions.lookup fresh_sid =
           some { user_id := none, start_time := now, actions := [], llm_calls := [] })) := by
  intro cfg st fresh_sid question e llm elapsed now
  constructor
  · refine ⟨rfl, rfl, rfl, rfl, ?_⟩
    simp only [answer_question, create_session]
    exact lookup_dictInsert fresh_sid _ st.sessions
  · intro documents meta e2 hne hprov
    have hempty : documents.isEmpty = false := by
      cases documents with
      | nil => exact absurd rfl hne
      | cons d ds => rfl
    have hgen : _generate_response cfg question documents (fun _ => .error e2) = .error e2 := by
      simp [_generate_response, hempty, hprov]
    refine ⟨?_, ?_, ?_⟩ <;>
      simp only [answer_question, create_session, hgen] <;>
      first
        | rfl
        | exact lookup_dictInsert fresh_sid _ st.sessions

/-- C2 witness: the failure conclusions at a concrete state. -/
theorem answer_question_failure_result_witness :
    ((answer_question sampleCfg ⟨[], []⟩ "sess-1" "pregunta" none
        (.error "Qdrant unavailable") (fun _ => .error "unused") 1 0).1.success = false ∧
     (answer_question sampleCfg ⟨[], []⟩ "sess-1" "pregunta" none
        (.error "Qdrant unavailable") (fun _ => .error "unused") 1 0).1.error =
       some "Qdrant unavailable") ∧
    ((answer_question sampleCfg ⟨[], []⟩ "sess-1" "pregunta" none
        (.ok (sampleDocs, rerankMetaNotApplied)) (fun _ => .error "LLM down") 1 0).1.success
        = false ∧
     (answer_question sampleCfg ⟨[], []⟩ "sess-1" "pregunta" none
        (.ok (sampleDocs, rerankMetaNotApplied)) (fun _ => .error "LLM down") 1 0).2.sessions.lookup
        "sess-1" = some { user_id := none, start_time := 0, actions := [], llm_calls := [] }) := by
  have h := answer_question_failure_result sampleCfg ⟨[], []⟩ "sess-1" "pregunta"
    "Qdrant unavailable" (fun _ => .error "unused") 1 0
  have h2 := h.2 sampleDocs rerankMetaNotApplied "LLM down" (by simp [sampleDocs]) rfl
  exact ⟨⟨h.1.1, h.1.2.1⟩, ⟨h2.1, h2.2.2⟩⟩

/-- C2 counterexample: at a concrete failing retrieval with no caller
session, `answer_question` returns the structured failure but the session
it created inside the call is still present in the live session table —
it is not removed before returning, contradicting the claim. -/
theorem answer_question_failure_session_survives :
    (answer_question sampleCfg ⟨[], []⟩ "sess-1" "pregunta" none
        (.error "Qdrant unavailable") (fun _ => .error "unused") 1 0).1.success = false ∧
    (answer_question sampleCfg ⟨[], []⟩ "sess-1" "pregunta" none
        (.error "Qdrant unavailable") (fun _ => .error "unused") 1 0).2.sessions.lookup
        "sess-1" = some { user_id := none, start_time := 0, actions := [], llm_calls := [] } :=
  ⟨rfl, rfl⟩

/-- Every value produced by `serializeValue` is accepted by the sink. -/
theorem sinkCompatible_serializeValue (v : PyVal) :
    sinkCompatible (serializeValue v) = true := by
  cases v with
  | list xs =>
      by_cases h : allPrimitive xs = true <;>
        simp [serializeValue, sinkCompatible, isPrimitive, h]
  | _ => rfl

/-- Every value of a serialized metadata dict is accepted by the sink. -/
theorem mem_serialize_metadata_compatible (md : List (String × PyVal))
    (kv : String × PyVal) (hm : kv ∈ serialize_metadata md) :
    sinkCompatible kv.2 = true := by
  unfold serialize_metadata at hm
  rcases List.mem_map.mp hm with ⟨p, _, rfl⟩
  exact sinkCompatible_serializeValue p.2

/-- Every session attribute other than `session.user_id` is a primitive
(and therefore sink compatible). -/
theorem session_attributes_compatible (st : ApiState) (sid : String)
    (kv : String × PyVal) (hm : kv ∈ _get_session_attributes st sid)
    (hk : kv.1 ≠ "session.user_id") : sinkCompatible kv.2 = true := by
  unfold _get_session_attributes at hm
  rcases hl : st.sessions.lookup sid with _ | s <;> rw [hl] at hm
  · simp at hm
  · simp only [List.mem_cons, List.not_mem_nil, or_false] at hm
    rcases hm with h | h | h | h <;> subst h
    · exact absurd rfl hk
    · rfl
    · rfl
    · rfl

/-- C3 (amended): `track_vectorstore_operation` serializes both the
session attributes and the metadata, so every attribute value it hands to
the sink is a primitive or a sequence of primitives; the other tracking
operations (LLM call, vectorstore search, embedding generation,
reranking) hand over primitives for every directly constructed attribute
but pass the session attributes unserialized, so only their
`session.user_id` attribute can be a non-primitive (`None`). -/
theorem track_attributes_serialization :
    (∀ (md : List (String × PyVal)) (kv : String × PyVal),
      kv ∈ serialize_metadata md → sinkCompatible kv.2 = true) ∧
    (∀ (st : ApiState) (sid op coll : String) (md : List (String × PyVal))
      (kv : String × PyVal),
      kv ∈ track_vectorstore_operation_attributes st sid op coll md →
      sinkCompatible kv.2 = true) ∧
    (∀ (st : ApiState) (sid provider model prompt response : String)
      (kv : String × PyVal),
      kv ∈ track_llm_call_attributes st sid provider model prompt response →
      kv.1 ≠ "session.user_id" → sinkCompatible kv.2 = true) ∧
    (∀ (st : ApiState) (sid query : String) (results_count : Nat) (search_time : ℚ)
      (kv : String × PyVal),
      kv ∈ track_vectorstore_search_attributes st sid query results_count search_time →
      kv.1 ≠ "session.user_id" → sinkCompatible kv.2 = true) ∧
    (∀ (st : ApiState) (sid text model : String) (generation_time : ℚ)
      (kv : String × PyVal),
      kv ∈ track_embedding_generation_attributes st sid text model generation_time →
      kv.1 ≠ "session.user_id" → sinkCompatible kv.2 = true) ∧
    (∀ (st : ApiState) (sid query : String) (documents_count : Nat) (reranking_time : ℚ)
      (kv : String × PyVal),
      kv ∈ track_reranking_attributes st sid query documents_count reranking_time →
      kv.1 ≠ "session.user_id" → sinkCompatible kv.2 = true) := by
  refine ⟨mem_serialize_metadata_compatible, ?_, ?_, ?_, ?_, ?_⟩
  · intro st sid op coll md kv hm
    simp only [track_vectorstore_operation_attributes, List.append_assoc, List.mem_append,
      List.mem_cons, List.not_mem_nil, or_false] at hm
    rcases hm with (h | h | h | h) | h | h
    · subst h; rfl
    · subst h; rfl
    · subst h; rfl
    · subst h; rfl
    · exact mem_serialize_metadata_compatible _ kv h
    · exact mem_serialize_metadata_compatible _ kv h
  · intro st sid provider model prompt response kv hm hk
    simp only [track_llm_call_attributes, List.mem_append, List.mem_cons,
      List.not_mem_nil, or_false] at hm
    rcases hm with (h | h | h | h | h | h | h) | h
    · subst h; rfl
    · subst h; rfl
    · subst h; rfl
    · subst h; rfl
    · subst h; rfl
    · subst h; rfl
    · subst h; rfl
    · exact session_attributes_compatible st sid kv h hk
  · intro st sid query results_count search_time kv hm hk
    simp only [track_vectorstore_search_attributes, List.mem_append, List.mem_cons,
      List.not_mem_nil, or_false] at hm
    rcases hm with (h | h | h | h | h) | h
    · subst h; rfl
    · subst h; rfl
    · subst h; rfl
    · subst h; rfl
    · subst h; rfl
    · exact session_attributes_compatible st sid kv h hk
  · intro st sid text model generation_time kv hm hk
    simp only [track_embedding_generation_attributes, List.mem_append, List.mem_cons,
      List.not_mem_nil, or_false] at hm
    rcases hm with (h | h | h | h | h) | h
    · subst h; rfl
    · subst h; rfl
    · subst h; rfl
    · subst h; rfl
    · subst h; rfl
    · exact session_attributes_compatible st sid kv h hk
  · intro st sid query documents_count reranking_time kv hm hk
    simp only [track_reranking_attributes, List.mem_append, List.mem_cons,
      List.not_mem_nil, or_false] at hm
    rcases hm with (h | h | h | h | h) | h
    · subst h; rfl
    · subst h; rfl
    · subst h; rfl
    · subst h; rfl
    · subst h; rfl
    · exact session_attributes_compatible st sid kv h hk

/-- C3 witness: concrete serialized and directly constructed attribute
values accepted by the sink. -/
theorem track_attributes_serialization_witness :
    sinkCompatible (PyVal.str "null") = true ∧
    sinkCompatible (PyVal.str "lus-laboris-api") = true := by
  constructor
  · exact track_attributes_serialization.1 [("token_payload", PyVal.vnull)]
      ("token_payload", PyVal.str "null") (by simp [serialize_metadata, serializeValue])
  · exact track_attributes_serialization.2.2.1 sampleState "sess-1" "openai" "gpt-4o-mini"
      "p" "r" ("service.name", PyVal.str "lus-laboris-api")
      (by simp [track_llm_call_attributes]) (by decide)

/-- C3 counterexample: on the answering path sessions are created with no
user id, and `track_llm_call` then hands the sink the attribute
`session.user_id = None` — a value that is neither a primitive nor a
sequence of primitives and is not serialized to a string first. -/
theorem track_llm_call_emits_none_attribute :
    (track_llm_call_attributes sampleState "sess-1" "openai" "gpt-4o-mini" "prompt"
        "respuesta").lookup "session.user_id" = some PyVal.vnull ∧
    sinkCompatible PyVal.vnull = false :=
  ⟨rfl, rfl⟩

/-- A left fold of `min` is bounded by its initial value. -/
theorem foldl_min_le_init : ∀ (xs : List ℚ) (a : ℚ), xs.foldl min a ≤ a := by
  intro xs
  induction xs with
  | nil => intro a; simp
  | cons x xs ih =>
      intro a
      exact le_trans (ih (min a x)) (min_le_left a x)

/-- A left fold of `min` is bounded by every list element. -/
theorem foldl_min_le_mem : ∀ (xs : List ℚ) (a x : ℚ), x ∈ xs → xs.foldl min a ≤ x := by
  intro xs
  induction xs with
  | nil => intro a x hx; simp at hx
  | cons y ys ih =>
      intro a x hx
      rcases List.mem_cons.mp hx with rfl | hx
      · exact le_trans (foldl_min_le_init ys (min a x)) (min_le_right a x)
      · exact ih (min a y) x hx

/-- A left fold of `max` dominates its initial value. -/
theorem le_foldl_max_init : ∀ (xs : List ℚ) (a : ℚ), a ≤ xs.foldl max a := by
  intro xs
  induction xs with
  | nil => intro a; simp
  | cons x xs ih =>
      intro a
      exact le_trans (le_max_left a x) (ih (max a x))

/-- A left fold of `max` dominates every list element. -/
theorem le_foldl_max_mem : ∀ (xs : List ℚ) (a x : ℚ), x ∈ xs → x ≤ xs.foldl max a := by
  intro xs
  induction xs with
  | nil => intro a x hx; simp at hx
  | cons y ys ih =>
      intro a x hx
      rcases List.mem_cons.mp hx with rfl | hx
      · exact le_trans (le_max_right a x) (le_foldl_max_init ys (max a x))
      · exact ih (max a y) x hx

/-- `scoresMin` is a lower bound of the scores. -/
theorem scoresMin_le (scores : List ℚ) : ∀ s ∈ scores, scoresMin scores ≤ s := by
  cases scores with
  | nil => intro s hs; simp at hs
  | cons x xs =>
      intro s hs
      rcases List.mem_cons.mp hs with rfl | hs
      · exact foldl_min_le_init xs s
      · exact foldl_min_le_mem xs x s hs

/-- `scoresMax` is an upper bound of the scores. -/
theorem le_scoresMax (scores : List ℚ) : ∀ s ∈ scores, s ≤ scoresMax scores := by
  cases scores with
  | nil => intro s hs; simp at hs
  | cons x xs =>
      intro s hs
      rcases List.mem_cons.mp hs with rfl | hs
      · exact le_foldl_max_init xs s
      · exact le_foldl_max_mem xs x s hs

/-- C7: with reranking enabled and a non-empty candidate list, the
reranked output has length at most `min N top_k`, is sorted descending by
rerank score, and the metadata reports `reranking_applied = true` with
min/max/mean score-range statistics (the reported minimum and maximum
bound every score, and the mean times the score count is the score
sum). -/
theorem rerank_documents_spec :
    ∀ (model_name query : String) (documents : List Doc) (k : Nat) (scores : List ℚ),
      documents ≠ [] → scores.length = documents.length →
      (rerank_documents true true model_name query documents (some k) scores).1.length
          ≤ min documents.length k ∧
      (rerank_documents true true model_name query documents (some k) scores).1.Pairwise
          (fun a b => b.rerank_score.getD 0 ≤ a.rerank_score.getD 0) ∧
      (rerank_documents true true model_name query documents
          (some k) scores).2.reranking_applied = true ∧
      (rerank_documents true true model_name query documents (some k) scores).2.score_min
          = some (scoresMin scores) ∧
      (∀ s ∈ scores, scoresMin scores ≤ s) ∧
      (rerank_documents true true model_name query documents (some k) scores).2.score_max
          = some (scoresMax scores) ∧
      (∀ s ∈ scores, s ≤ scoresMax scores) ∧
      (rerank_documents true true model_name query documents (some k) scores).2.score_mean
          = some (scoresMean scores) ∧
      scoresMean scores * scores.length = scores.sum := by
  intro model_name query documents k scores hne hlen
  cases documents with
  | nil => exact absurd rfl hne
  | cons d ds =>
      have hscne : scores.length ≠ 0 := by
        rw [hlen]
        simp
      refine ⟨?_, ?_, rfl, rfl, scoresMin_le scores, rfl, le_scoresMax scores, rfl, ?_⟩
      · have h1 : (rerank_documents true true model_name query (d :: ds)
            (some k) scores).1 =
            ((List.zipWith (fun dc s => { dc with rerank_score := some s }) (d :: ds)
              scores).mergeSort fun a b =>
                decide (b.rerank_score.getD 0 ≤ a.rerank_score.getD 0)).take k := rfl
        rw [h1, List.length_take, List.length_mergeSort, List.length_zipWith, hlen]
        omega
      · have htrans : ∀ a b c : Doc,
            decide (b.rerank_score.getD 0 ≤ a.rerank_score.getD 0) = true →
            decide (c.rerank_score.getD 0 ≤ b.rerank_score.getD 0) = true →
            decide (c.rerank_score.getD 0 ≤ a.rerank_score.getD 0) = true := by
          intro a b c hab hbc
          simp only [decide_eq_true_eq] at *
          exact le_trans hbc hab
        have htot : ∀ a b : Doc,
            (decide (b.rerank_score.getD 0 ≤ a.rerank_score.getD 0) ||
             decide (a.rerank_score.getD 0 ≤ b.rerank_score.getD 0)) = true := by
          intro a b
          simp only [Bool.or_eq_true, decide_eq_true_eq]
          exact le_total _ _
        have hsorted := List.sorted_mergeSort htrans htot
          (List.zipWith (fun dc s => { dc with rerank_score := some s }) (d :: ds) scores)
        have hfull : ((List.zipWith (fun dc s => { dc with rerank_score := some s })
            (d :: ds) scores).mergeSort fun a b =>
              decide (b.rerank_score.getD 0 ≤ a.rerank_score.getD 0)).Pairwise
            (fun a b => b.rerank_score.getD 0 ≤ a.rerank_score.getD 0) :=
          hsorted.imp fun h => of_decide_eq_true h
        exact hfull.sublist (List.take_sublist k _)
      · have hq : (scores.length : ℚ) ≠ 0 := Nat.cast_ne_zero.mpr hscne
        simp only [scoresMean]
        field_simp

/-- C7 witness: reranking two sample documents with scores ½ and ¾,
truncated to the single best. -/
theorem rerank_documents_spec_witness :
    (rerank_documents true true "cross-encoder" "pregunta" sampleDocs
        (some 1) [1/2, 3/4]).1.length ≤ min sampleDocs.length 1 ∧
    (rerank_documents true true "cross-encoder" "pregunta" sampleDocs
        (some 1) [1/2, 3/4]).1.Pairwise
        (fun a b => b.rerank_score.getD 0 ≤ a.rerank_score.getD 0) ∧
    (rerank_documents true true "cross-encoder" "pregunta" sampleDocs
        (some 1) [1/2, 3/4]).2.reranking_applied = true ∧
    (rerank_documents true true "cross-encoder" "pregunta" sampleDocs
        (some 1) [1/2, 3/4]).2.score_min = some (scoresMin [1/2, 3/4]) ∧
    (∀ s ∈ [(1:ℚ)/2, 3/4], scoresMin [1/2, 3/4] ≤ s) ∧
    (rerank_documents true true "cross-encoder" "pregunta" sampleDocs
        (some 1) [1/2, 3/4]).2.score_max = some (scoresMax [1/2, 3/4]) ∧
    (∀ s ∈ [(1:ℚ)/2, 3/4], s ≤ scoresMax [1/2, 3/4]) ∧
    (rerank_documents true true "cross-encoder" "pregunta" sampleDocs
        (some 1) [1/2, 3/4]).2.score_mean = some (scoresMean [1/2, 3/4]) ∧
    scoresMean [1/2, 3/4] * ([(1:ℚ)/2, 3/4] : List ℚ).length = ([(1:ℚ)/2, 3/4] : List ℚ).sum :=
  rerank_documents_spec "cross-encoder" "pregunta" sampleDocs 1 [1/2, 3/4]
    (by simp [sampleDocs]) rfl

end LusLaboris
